import Mathlib

/-!
Shallow embedding of the pokechat-advisor pipeline.

Source files embedded here:
* `external/pokemon_tcg_api.py` — the card-search executor (`search_cards`) and
  the response formatter (`format_cards_for_llm`);
* `backend/services/pokemon_service.py` — demo-mode fixture search
  (`_search_in_demo_data`) and the structured-card extractor (`extract_card_info`);
* `backend/services/llm_service.py` — stage-1 query cleanup (`generate_api_query`)
  and conversation-history windowing (`_format_conversation_history`);
* `ml_models/model_manager.py` — the sentinel split in `generate_response`;
* `backend/routes/chat.py` — the orchestrator (`chat`).

Python dictionaries for card records are embedded as structures with `Option`
fields (a missing key is `none`); JSON responses from the card API are embedded
as the inductive `SearchResult` (a success payload with a `data` list, or one of
the three error dictionaries built by `search_cards`; the unused `count`/`page`
metadata of success payloads is omitted).  Python strings are Lean `String`s and
string operations (`strip`, `lower`, `in`, slicing, `replace`) are given
explicit character-list embeddings below.
-/

/-- Python `str.isspace` on the ASCII whitespace characters that `str.strip()`
removes: space, tab, newline, carriage return, vertical tab, form feed. -/
def pyIsSpace (c : Char) : Bool :=
  c = ' ' || c = '\t' || c = '\n' || c = '\r' || c = '\x0b' || c = '\x0c'

/-- Python `str.strip()` on a character list: drop whitespace from both ends. -/
def stripChars (l : List Char) : List Char :=
  ((l.dropWhile pyIsSpace).reverse.dropWhile pyIsSpace).reverse

/-- Python `str.strip()`. -/
def pyStrip (s : String) : String := ⟨stripChars s.data⟩

/-- Python `str.lower()` (ASCII). -/
def pyLower (s : String) : String := ⟨s.data.map Char.toLower⟩

/-- `isPre a b` : the list `a` is an initial segment of `b`. -/
def isPre : List Char → List Char → Bool
  | [], _ => true
  | _ :: _, [] => false
  | a :: as, b :: bs => a = b && isPre as bs

/-- `isSub a b` : Python `a in b` for strings — `a` occurs as a contiguous
substring of `b`. -/
def isSub (a : List Char) : List Char → Bool
  | [] => a.isEmpty
  | c :: rest => isPre a (c :: rest) || isSub a rest

/-- Python `needle in hay` on strings. -/
def containsSub (needle hay : String) : Bool := isSub needle.data hay.data

/-- Python `text[:n]` — truncation of a string to its first `n` characters. -/
def pySlice (n : Nat) (s : String) : String := ⟨s.data.take n⟩

/-- A weakness or resistance entry: the dicts `{"type": ..., "value": ...}`. -/
structure WeakRes where
  type : Option String
  value : Option String
  deriving Repr, DecidableEq

/-- An ability entry: `{"name": ..., "text": ...}`. -/
structure Ability where
  name : Option String
  text : Option String
  deriving Repr, DecidableEq

/-- An attack entry: `{"name": ..., "cost": [...], "damage": ..., "text": ...}`. -/
structure Attack where
  name : Option String
  cost : Option (List String)
  damage : Option String
  text : Option String
  deriving Repr, DecidableEq

/-- The nested `"images"` dict; only `"small"` is read. -/
structure CardImages where
  small : Option String
  deriving Repr, DecidableEq

/-- The nested `"set"` dict; only `"name"` is read. -/
structure CardSet where
  name : Option String
  deriving Repr, DecidableEq

/-- One raw card record of the API response `data` array: the keys read by
`format_cards_for_llm` and `extract_card_info`, each optional because the
Python reads them with `dict.get`. -/
structure Card where
  name : Option String := none
  id : Option String := none
  supertype : Option String := none
  subtypes : Option (List String) := none
  hp : Option String := none
  types : Option (List String) := none
  weaknesses : Option (List WeakRes) := none
  resistances : Option (List WeakRes) := none
  retreatCost : Option (List String) := none
  set : Option CardSet := none
  rarity : Option String := none
  images : Option CardImages := none
  abilities : Option (List Ability) := none
  attacks : Option (List Attack) := none
  deriving Repr, DecidableEq

/-- The value returned by `PokemonTCGAPIClient.search_cards` (and flowing to the
formatter and extractor): either the API success payload with its `data` array,
or one of the three error dictionaries built in the `except` branches
(`"error"`/`"message"` keys, plus `"response_text"` for HTTP-status errors and
`"type"` for the other two). -/
inductive SearchResult where
  | ok (data : List Card)
  | httpStatusError (statusCode : Nat) (message : String) (responseText : String)
  | requestError (message : String) (tyName : String)
  | unexpectedError (message : String) (tyName : String)
  deriving Repr, DecidableEq

namespace SearchResult

/-- Python `"error" in api_response` on a search result. -/
def hasErrorKey : SearchResult → Bool
  | ok _ => false
  | _ => true

/-- The `"message"` value of an error dictionary. -/
def message : SearchResult → Option String
  | ok _ => none
  | httpStatusError _ m _ => some m
  | requestError m _ => some m
  | unexpectedError m _ => some m

end SearchResult

/-- `w.get('type', 'Unknown') + " (" + w.get('value', 'N/A') + ")"` — the
rendering shared by weaknesses and resistances in both the formatter and the
extractor. -/
def renderWeakRes (w : WeakRes) : String :=
  (w.type.getD "Unknown") ++ " (" ++ (w.value.getD "N/A") ++ ")"

/-- `", ".join(xs)`. -/
def joinComma (xs : List String) : String := String.intercalate ", " xs

/-- `"; ".join(xs)`. -/
def joinSemi (xs : List String) : String := String.intercalate "; " xs

/-- `", ".join(xs) if xs else "None"`. -/
def joinCommaOrNone (xs : List String) : String :=
  if xs.isEmpty then "None" else joinComma xs

/-- `"; ".join(xs) if xs else "None"`. -/
def joinSemiOrNone (xs : List String) : String :=
  if xs.isEmpty then "None" else joinSemi xs

/-- The per-card block built inside `format_cards_for_llm`: the `card_info`
dict fields spliced into the multi-line f-string, then `str.strip()`-ed. -/
def renderCard (card : Card) : String :=
  let name := card.name.getD "Unknown"
  let id := card.id.getD "Unknown"
  let supertype := card.supertype.getD "Unknown"
  let subtypes := joinComma (card.subtypes.getD [])
  let hp := card.hp.getD "N/A"
  let types := joinComma (card.types.getD [])
  let weaknesses := (card.weaknesses.getD []).map renderWeakRes
  let resistances := (card.resistances.getD []).map renderWeakRes
  let retreatCost := (card.retreatCost.getD []).length
  let setName := ((card.set.getD ⟨none⟩).name).getD "Unknown"
  let rarity := card.rarity.getD "Unknown"
  let imageUrl := ((card.images.getD ⟨none⟩).small).getD ""
  let abilities := (card.abilities.getD []).map fun a =>
    (a.name.getD "Unknown") ++ ": " ++ (a.text.getD "No description")
  let attacks := (card.attacks.getD []).map fun a =>
    (a.name.getD "Unknown") ++ " (" ++ joinComma (a.cost.getD []) ++ "): " ++
      (a.damage.getD "0") ++ " - " ++ (a.text.getD "No description")
  pyStrip ("\nCard: " ++ name ++
    "\nID: " ++ id ++
    "\nType: " ++ supertype ++ " - " ++ subtypes ++
    "\nHP: " ++ hp ++
    "\nTypes: " ++ types ++
    "\nWeaknesses: " ++ joinCommaOrNone weaknesses ++
    "\nResistances: " ++ joinCommaOrNone resistances ++
    "\nRetreat Cost: " ++ toString retreatCost ++
    "\nSet: " ++ setName ++
    "\nRarity: " ++ rarity ++
    "\nImage URL: " ++ imageUrl ++
    "\nAbilities: " ++ joinSemiOrNone abilities ++
    "\nAttacks: " ++ joinSemiOrNone attacks ++ "\n")

/-- `PokemonTCGAPIClient.format_cards_for_llm`: error dictionaries become
`"Error: " + message`; a missing or empty `data` array becomes the no-match
sentence; otherwise the first five cards are rendered and joined with the
separator line. -/
def format_cards_for_llm : SearchResult → String
  | .httpStatusError _ m _ => "Error: " ++ m
  | .requestError m _ => "Error: " ++ m
  | .unexpectedError m _ => "Error: " ++ m
  | .ok data =>
    if data.isEmpty then "No cards found matching the query."
    else String.intercalate "\n\n---\n\n" ((data.take 5).map renderCard)

/-- The `CardInfo` pydantic model of `backend/models/chat_models.py`, as
populated by `PokemonService.extract_card_info`. -/
structure CardInfo where
  name : String
  id : String
  hp : Option String
  types : List String
  weaknesses : List String
  resistances : List String
  retreat_cost : Nat
  image_url : Option String
  abilities : List String
  attacks : List String
  set_name : Option String
  rarity : Option String
  deriving Repr, DecidableEq

/-- The `CardInfo` built for one record inside `extract_card_info`. -/
def mkCardInfo (card : Card) : CardInfo where
  name := card.name.getD "Unknown"
  id := card.id.getD "Unknown"
  hp := card.hp
  types := card.types.getD []
  weaknesses := (card.weaknesses.getD []).map renderWeakRes
  resistances := (card.resistances.getD []).map renderWeakRes
  retreat_cost := (card.retreatCost.getD []).length
  image_url := (card.images.getD ⟨none⟩).small
  abilities := (card.abilities.getD []).map fun a =>
    (a.name.getD "Unknown") ++ ": " ++ (a.text.getD "No description")
  attacks := (card.attacks.getD []).map fun a =>
    (a.name.getD "Unknown") ++ " - " ++ (a.damage.getD "0") ++ " damage"
  set_name := (card.set.getD ⟨none⟩).name
  rarity := card.rarity

/-- `PokemonService.extract_card_info`: empty on error dictionaries (which have
an `"error"` key and no `"data"` key), otherwise the first five records
projected to `CardInfo`. -/
def extract_card_info : SearchResult → List CardInfo
  | .ok data => (data.take 5).map mkCardInfo
  | _ => []

/-- The possible outcomes of the single HTTP request made inside
`PokemonTCGAPIClient.search_cards` (`client.get` followed by
`raise_for_status()` and `.json()`): a parsed success payload, an
`httpx.HTTPStatusError` (failure status; carries the status code, the exception
message and the response body text), an `httpx.RequestError`
(connection/DNS/timeout; carries the message and the exception class name), or
any other exception. -/
inductive HttpOutcome where
  | success (data : List Card)
  | statusError (statusCode : Nat) (message : String) (responseText : String)
  | transportError (message : String) (tyName : String)
  | otherException (message : String) (tyName : String)
  deriving Repr, DecidableEq

/-- `o` is a failure of the HTTP request. -/
def HttpOutcome.isFailure : HttpOutcome → Bool
  | .success _ => false
  | _ => true

/-- `PokemonTCGAPIClient.search_cards`, as a function of the outcome of its one
network request: the `try` body returns the parsed payload; the three `except`
branches return the three error dictionaries, with the response body truncated
to 500 characters (`e.response.text[:500]`) in the HTTP-status branch. -/
def PokemonTCGAPIClient.search_cards : HttpOutcome → SearchResult
  | .success data => .ok data
  | .statusError code msg text => .httpStatusError code msg (pySlice 500 text)
  | .transportError msg ty => .requestError msg ty
  | .otherException msg ty => .unexpectedError msg ty

/-- `PokemonService._search_in_demo_data`: the demo table is the insertion-
ordered key/value list of the loaded JSON object; the query is lowercased, a
first pass returns the value of the first key occurring as a substring of the
lowered query, a second pass also accepts keys containing the lowered query,
and with no match the empty response `{"data": [], "count": 0}` is returned. -/
def PokemonService.search_in_demo_data
    (demoData : List (String × SearchResult)) (query : String) : SearchResult :=
  match demoData.find? (fun kv => containsSub kv.1 (pyLower query)) with
  | some kv => kv.2
  | none =>
    match demoData.find? (fun kv =>
        containsSub kv.1 (pyLower query) || containsSub (pyLower query) kv.1) with
    | some kv => kv.2
    | none => .ok []

/-- `PokemonService.search_cards`: demo mode looks up the fixture table,
otherwise the live API client is called (its network outcome is a parameter
here). -/
def PokemonService.search_cards (demoMode : Bool)
    (demoData : List (String × SearchResult)) (query : String)
    (liveOutcome : HttpOutcome) : SearchResult :=
  if demoMode then PokemonService.search_in_demo_data demoData query
  else PokemonTCGAPIClient.search_cards liveOutcome

/-- Python `s.replace("\n", " ")` — the replaced text is a single character,
so this is a character map. -/
def replaceNewlines (s : String) : String :=
  ⟨s.data.map fun c => if c = '\n' then ' ' else c⟩

/-- `LLMService.generate_api_query`, as a function of the raw stage-1 model
output: `query.strip().replace("\n", " ")`.  No other validation is applied. -/
def LLMService.generate_api_query (rawModelOutput : String) : String :=
  replaceNewlines (pyStrip rawModelOutput)

/-- A `Message` of `backend/models/chat_models.py`: a conversation turn. -/
structure Message where
  role : String
  content : String
  deriving Repr, DecidableEq

/-- The line built for one turn inside `_format_conversation_history`:
`role = "User" if msg.role == "user" else "Assistant"`, then
`f"{role}: {msg.content}"`. -/
def renderMessage (m : Message) : String :=
  (if m.role = "user" then "User" else "Assistant") ++ ": " ++ m.content

/-- `LLMService._format_conversation_history`: empty history yields `""`;
otherwise the last six turns (`history[-6:]`) are rendered and joined with
newlines. -/
def LLMService.format_conversation_history (history : List Message) : String :=
  if history.isEmpty then ""
  else String.intercalate "\n"
    ((history.drop (history.length - 6)).map renderMessage)

/-- The `</think>` sentinel token id used in `ModelManager.generate_response`. -/
def sentinelToken : Nat := 151668

/-- Python `list.index` — the position of the first occurrence (meaningful only
when the element is present; the caller guards with a membership test that
mirrors the `try`/`except ValueError`). -/
def listIdx (a : Nat) : List Nat → Nat
  | [] => 0
  | b :: bs => if b = a then 0 else listIdx a bs + 1

/-- The split index computed in `ModelManager.generate_response`:
`index = len(output_ids) - output_ids[::-1].index(151668)` when the sentinel is
present, `0` on `ValueError`. -/
def splitIndex (outputIds : List Nat) : Nat :=
  if sentinelToken ∈ outputIds then
    outputIds.length - listIdx sentinelToken outputIds.reverse
  else 0

/-- The (reasoning tokens, content tokens) pair of
`ModelManager.generate_response`: `output_ids[:index]` and `output_ids[index:]`. -/
def generateSplit (outputIds : List Nat) : List Nat × List Nat :=
  (outputIds.take (splitIndex outputIds), outputIds.drop (splitIndex outputIds))

/-- The `ChatResponse` model returned by the `/chat` route. -/
structure ChatResponse where
  response : String
  cards : List CardInfo
  query_used : String
  deriving Repr, DecidableEq

/-- The fixed apology/clarification message of the no-results short-circuit in
`backend/routes/chat.py`. -/
def apologyMessage : String :=
  "I couldn't find any cards matching your question. Could you please rephrase your question or provide more details? For example, you could specify a card name, type, or other characteristics."

/-- The no-results condition tested by the orchestrator:
`"No cards found" in api_response_formatted or "Error:" in api_response_formatted`
— substring containment on the formatted display text. -/
def noResultsSignal (formatted : String) : Bool :=
  containsSub "No cards found" formatted || containsSub "Error:" formatted

/-- The `chat` route of `backend/routes/chat.py`, as a function of the stage-1
query, the raw search result, and the stage-2 answer text: format the result,
short-circuit with the fixed apology when the no-results condition fires,
otherwise return the stage-2 answer together with the extracted cards. -/
def chat (apiQuery : String) (apiResponseRaw : SearchResult)
    (stage2Answer : String) : ChatResponse :=
  let formatted := format_cards_for_llm apiResponseRaw
  if noResultsSignal formatted then
    { response := apologyMessage, cards := [], query_used := apiQuery }
  else
    { response := stage2Answer, cards := extract_card_info apiResponseRaw,
      query_used := apiQuery }

/-- The condition the specification attributes to the orchestrator: display
text equal to the no-match sentence, or beginning with `"Error:"`.  (Modelled
from the spec's words for comparison with `noResultsSignal`, the condition the
code actually tests.) -/
def specNoResultsCondition (formatted : String) : Bool :=
  formatted = "No cards found matching the query." || isPre "Error:".data formatted.data

/-- A card whose name happens to contain the orchestrator's error marker. -/
def errorNamedCard : Card := { name := some "Error: oops" }

/-- A 12-token output stream with the sentinel at 0-indexed positions 3 and 9. -/
def ids12 : List Nat := [0, 1, 2, 151668, 4, 5, 6, 7, 8, 151668, 10, 11]

/-- Seven raw card records (all fields absent). -/
def sevenCards : List Card := [{}, {}, {}, {}, {}, {}, {}]

/-- A ten-turn conversation history. -/
def hist10 : List Message :=
  [⟨"user", "u1"⟩, ⟨"assistant", "a1"⟩, ⟨"user", "u2"⟩, ⟨"assistant", "a2"⟩,
   ⟨"user", "u3"⟩, ⟨"assistant", "a3"⟩, ⟨"user", "u4"⟩, ⟨"assistant", "a4"⟩,
   ⟨"user", "u5"⟩, ⟨"assistant", "a5"⟩]

/-- A sample card record for fixture tables. -/
def pikaCard : Card := { name := some "Pikachu" }

/-- A demo fixture table whose single key is stored in upper case. -/
def upperKeyTable : List (String × SearchResult) := [("PIKACHU", SearchResult.ok [pikaCard])]

/-- A demo fixture table whose single key is stored in lower case. -/
def lowerKeyTable : List (String × SearchResult) := [("pikachu", SearchResult.ok [pikaCard])]

/-- A demo fixture table whose single key is a phrase containing the query,
reachable only through the second matching pass. -/
def phraseKeyTable : List (String × SearchResult) :=
  [("pikachu is electric", SearchResult.ok [pikaCard])]

section HelperLemmas

/-- The head surviving a `dropWhile` fails the predicate. -/
theorem dropWhile_head_false (p : Char → Bool) (l : List Char) {c : Char}
    (h : (l.dropWhile p).head? = some c) : p c = false := by
  induction l with
  | nil => simp [List.dropWhile] at h
  | cons b bs ih =>
    by_cases hb : p b
    · rw [List.dropWhile_cons, if_pos hb] at h
      exact ih h
    · rw [List.dropWhile_cons, if_neg hb] at h
      simp only [List.head?_cons, Option.some.injEq] at h
      subst h
      simpa using hb

/-- `dropWhile` removes an initial segment: it is a `drop`. -/
theorem dropWhile_eq_drop (p : Char → Bool) (l : List Char) :
    ∃ k, l.dropWhile p = l.drop k := by
  induction l with
  | nil => exact ⟨0, rfl⟩
  | cons b bs ih =>
    by_cases hb : p b
    · obtain ⟨k, hk⟩ := ih
      exact ⟨k + 1, by rw [List.dropWhile_cons, if_pos hb, hk]; rfl⟩
    · exact ⟨0, by rw [List.dropWhile_cons, if_neg hb]; rfl⟩

/-- The first character of a stripped string is not whitespace. -/
theorem stripChars_head {l : List Char} {c : Char}
    (h : (stripChars l).head? = some c) : pyIsSpace c = false := by
  unfold stripChars at h
  set m := l.dropWhile pyIsSpace with hm
  rw [List.head?_reverse] at h
  obtain ⟨k, hk⟩ := dropWhile_eq_drop pyIsSpace m.reverse
  rw [hk, List.getLast?_eq_head?_reverse, List.reverse_drop, List.reverse_reverse,
    List.length_reverse, List.head?_take] at h
  split at h
  · exact absurd h (by simp)
  · exact dropWhile_head_false pyIsSpace l h

/-- The last character of a stripped string is not whitespace. -/
theorem stripChars_getLast {l : List Char} {c : Char}
    (h : (stripChars l).getLast? = some c) : pyIsSpace c = false := by
  unfold stripChars at h
  rw [List.getLast?_reverse] at h
  exact dropWhile_head_false pyIsSpace _ h

/-- A list beginning with `a` contains `a` as a contiguous sublist. -/
theorem isSub_of_isPre {a l : List Char} (h : isPre a l = true) :
    isSub a l = true := by
  cases l with
  | nil =>
    cases a with
    | nil => rfl
    | cons x xs => simp [isPre] at h
  | cons c rest => simp [isSub, h]

/-- `list.index` of a present element is in range. -/
theorem listIdx_lt_length {a : Nat} {l : List Nat} (h : a ∈ l) :
    listIdx a l < l.length := by
  induction l with
  | nil => cases h
  | cons b bs ih =>
    by_cases hb : b = a
    · simp [listIdx, hb]
    · have hmem : a ∈ bs := by
        rcases List.mem_cons.mp h with h1 | h1
        · exact absurd h1.symm hb
        · exact h1
      simp only [listIdx, if_neg hb, List.length_cons]
      exact Nat.succ_lt_succ (ih hmem)

/-- `list.index` of a present element points at that element. -/
theorem listIdx_getElem {a : Nat} {l : List Nat} (h : a ∈ l) :
    l[listIdx a l]? = some a := by
  induction l with
  | nil => cases h
  | cons b bs ih =>
    by_cases hb : b = a
    · simp [listIdx, hb]
    · have hmem : a ∈ bs := by
        rcases List.mem_cons.mp h with h1 | h1
        · exact absurd h1.symm hb
        · exact h1
      simpa [listIdx, hb] using ih hmem

/-- `list.index` finds the first occurrence: the element does not occur
before it. -/
theorem not_mem_take_listIdx (a : Nat) (l : List Nat) :
    a ∉ l.take (listIdx a l) := by
  induction l with
  | nil => simp
  | cons b bs ih =>
    by_cases hb : b = a
    · simp [listIdx, hb]
    · simp only [listIdx, if_neg hb, List.take_succ_cons, List.mem_cons]
      rintro (h1 | h1)
      · exact hb h1.symm
      · exact ih h1

/-- Reversing the first `n` elements of the reverse yields the last `n`
elements in original order. -/
theorem reverse_take_reverse (l : List Nat) (n : Nat) :
    (l.reverse.take n).reverse = l.drop (l.length - n) := by
  rw [List.reverse_take, List.reverse_reverse, List.length_reverse]

end HelperLemmas


/-- C1 (counterexample): a result with a single card named `"Error: oops"`
renders to a display text that neither equals the no-match sentence nor begins
with `"Error:"`, yet the orchestrator still takes the no-results short-circuit,
because the code tests substring containment, not equality/begins-with. -/
theorem chat_no_results_counterexample :
    specNoResultsCondition (format_cards_for_llm (SearchResult.ok [errorNamedCard])) = false ∧
    chat "name:x" (SearchResult.ok [errorNamedCard]) "stage two answer" =
      { response := apologyMessage, cards := [], query_used := "name:x" } := by
  constructor
  · rfl
  · rfl

/-- C1 (amended): the orchestrator takes the no-results short-circuit (fixed
apology, empty card list, generated query as `query_used`, stage 2 skipped)
exactly when the formatted display text contains `"No cards found"` or
`"Error:"` as a substring; otherwise the stage-2 answer and the extracted cards
are returned.  The spec's equals-or-begins-with condition implies the code's
substring condition, so the short-circuit fires in every case the spec
describes (and in more). -/
theorem chat_no_results_spec (q ans : String) (raw : SearchResult) :
    (noResultsSignal (format_cards_for_llm raw) = true →
      chat q raw ans = { response := apologyMessage, cards := [], query_used := q }) ∧
    (noResultsSignal (format_cards_for_llm raw) = false →
      chat q raw ans = { response := ans, cards := extract_card_info raw, query_used := q }) ∧
    (specNoResultsCondition (format_cards_for_llm raw) = true →
      noResultsSignal (format_cards_for_llm raw) = true) := by
  refine ⟨fun h => by simp [chat, h], fun h => by simp [chat, h], fun h => ?_⟩
  unfold specNoResultsCondition at h
  rw [Bool.or_eq_true] at h
  rcases h with h | h
  · have he : format_cards_for_llm raw = "No cards found matching the query." :=
      of_decide_eq_true h
    rw [he]
    decide
  · unfold noResultsSignal containsSub
    simp [isSub_of_isPre h]

/-- C1 (witness): an empty search result triggers the short-circuit. -/
theorem chat_no_results_spec_witness :
    chat "name:zzz" (SearchResult.ok []) "unused answer" =
      { response := apologyMessage, cards := [], query_used := "name:zzz" } :=
  (chat_no_results_spec "name:zzz" "unused answer" (SearchResult.ok [])).1 (by decide)

/-- C2 (counterexample): for the 12-token stream with the sentinel at 0-indexed
positions 3 and 9, the code splits at index 10 (one past the last sentinel),
not at index 9 as the claim states: the reasoning segment is tokens [0,10) and
the content segment is tokens [10,12). -/
theorem generate_split_counterexample :
    generateSplit ids12 ≠ (ids12.take 9, ids12.drop 9) ∧
    generateSplit ids12 = (ids12.take 10, ids12.drop 10) := by
  constructor
  · decide
  · decide

/-- C2 (amended): the split always decomposes the stream; when the sentinel
occurs, the split point is one past its last occurrence — the reasoning segment
ends with the sentinel token and the content segment is sentinel-free; when the
sentinel never occurs, the reasoning segment is empty and the whole stream is
content. -/
theorem generate_split_spec (outputIds : List Nat) :
    (generateSplit outputIds).1 ++ (generateSplit outputIds).2 = outputIds ∧
    (sentinelToken ∉ outputIds → generateSplit outputIds = ([], outputIds)) ∧
    (sentinelToken ∈ outputIds →
      (generateSplit outputIds).1.getLast? = some sentinelToken ∧
      sentinelToken ∉ (generateSplit outputIds).2) := by
  refine ⟨List.take_append_drop _ _, fun h => by simp [generateSplit, splitIndex, h], fun h => ?_⟩
  have hmemrev : sentinelToken ∈ outputIds.reverse := List.mem_reverse.mpr h
  have hklt : listIdx sentinelToken outputIds.reverse < outputIds.length := by
    have := listIdx_lt_length hmemrev
    rwa [List.length_reverse] at this
  have hidx : splitIndex outputIds =
      outputIds.length - listIdx sentinelToken outputIds.reverse := by
    simp [splitIndex, h]
  constructor
  · show (outputIds.take (splitIndex outputIds)).getLast? = some sentinelToken
    rw [hidx, List.getLast?_eq_getElem?, List.length_take]
    have hmin : (outputIds.length - listIdx sentinelToken outputIds.reverse) ⊓
        outputIds.length =
        outputIds.length - listIdx sentinelToken outputIds.reverse := by omega
    rw [hmin, List.getElem?_take, if_pos (by omega)]
    have harith : outputIds.length - listIdx sentinelToken outputIds.reverse - 1 =
        outputIds.length - 1 - listIdx sentinelToken outputIds.reverse := by omega
    rw [harith, ← List.getElem?_reverse hklt]
    exact listIdx_getElem hmemrev
  · show sentinelToken ∉ outputIds.drop (splitIndex outputIds)
    rw [hidx, ← reverse_take_reverse, List.mem_reverse]
    exact not_mem_take_listIdx _ _

/-- C2 (witness): on the concrete 12-token stream, the reasoning segment ends
with the sentinel and the content segment is sentinel-free. -/
theorem generate_split_spec_witness :
    (generateSplit ids12).1.getLast? = some sentinelToken ∧
    sentinelToken ∉ (generateSplit ids12).2 :=
  (generate_split_spec ids12).2.2 (by decide)

/-- C3: for a search result with at least one record, the extracted card list
is exactly the first-five prefix of the records mapped to summaries, the
formatted display text is the join of the same first-five prefix mapped to
rendered blocks, and both have exactly `min N 5` entries — so structure and
text are drawn from the same result in source order. -/
theorem cards_take_five (data : List Card) (h : 1 ≤ data.length) :
    extract_card_info (SearchResult.ok data) = (data.take 5).map mkCardInfo ∧
    (extract_card_info (SearchResult.ok data)).length = min data.length 5 ∧
    format_cards_for_llm (SearchResult.ok data) =
      String.intercalate "\n\n---\n\n" ((data.take 5).map renderCard) ∧
    ((data.take 5).map renderCard).length = min data.length 5 := by
  have hne : data.isEmpty = false := by
    cases data with
    | nil => simp at h
    | cons a as => rfl
  refine ⟨rfl, ?_, ?_, ?_⟩
  · simp only [extract_card_info, List.length_map, List.length_take]
    omega
  · simp [format_cards_for_llm, hne]
  · simp only [List.length_map, List.length_take]
    omega

/-- C3 (witness): with seven records, exactly five summaries are produced. -/
theorem cards_take_five_witness :
    (extract_card_info (SearchResult.ok sevenCards)).length = min sevenCards.length 5 :=
  (cards_take_five sevenCards (by decide)).2.1

/-- C4: an error result formats to exactly `"Error: " + message` with an empty
card list (for each of the three error kinds), and a result with no records
formats to exactly the no-match sentence with an empty card list. -/
theorem format_error_and_empty (c : Nat) (m t ty : String) :
    format_cards_for_llm (SearchResult.httpStatusError c m t) = "Error: " ++ m ∧
    extract_card_info (SearchResult.httpStatusError c m t) = [] ∧
    format_cards_for_llm (SearchResult.requestError m ty) = "Error: " ++ m ∧
    extract_card_info (SearchResult.requestError m ty) = [] ∧
    format_cards_for_llm (SearchResult.unexpectedError m ty) = "Error: " ++ m ∧
    extract_card_info (SearchResult.unexpectedError m ty) = [] ∧
    format_cards_for_llm (SearchResult.ok []) = "No cards found matching the query." ∧
    extract_card_info (SearchResult.ok []) = [] :=
  ⟨rfl, rfl, rfl, rfl, rfl, rfl, rfl, rfl⟩

/-- C5: the search executor maps every outcome of its one network request to a
typed result (total function — no exception escapes): a success payload passes
through, an HTTP-status failure becomes `httpStatusError` capturing the status
code and the response body truncated to 500 characters, a transport failure
becomes `requestError`, and any other exception becomes `unexpectedError`;
a result is an error dictionary exactly when the outcome was a failure. -/
theorem search_cards_error_classification :
    (∀ data, PokemonTCGAPIClient.search_cards (HttpOutcome.success data) =
      SearchResult.ok data) ∧
    (∀ c m t, PokemonTCGAPIClient.search_cards (HttpOutcome.statusError c m t) =
        SearchResult.httpStatusError c m (pySlice 500 t) ∧
      (pySlice 500 t).length ≤ 500) ∧
    (∀ m ty, PokemonTCGAPIClient.search_cards (HttpOutcome.transportError m ty) =
      SearchResult.requestError m ty) ∧
    (∀ m ty, PokemonTCGAPIClient.search_cards (HttpOutcome.otherException m ty) =
      SearchResult.unexpectedError m ty) ∧
    (∀ o : HttpOutcome,
      SearchResult.hasErrorKey (PokemonTCGAPIClient.search_cards o) = o.isFailure) := by
  refine ⟨fun _ => rfl, fun c m t => ⟨rfl, ?_⟩, fun _ _ => rfl, fun _ _ => rfl, fun o => ?_⟩
  · show (t.data.take 500).length ≤ 500
    rw [List.length_take]
    omega
  · cases o <;> rfl

/-- C6: windowing an empty history yields the empty string; windowing a
non-empty history yields the newline-join of the rendered last-six suffix of
the history — the window is a suffix (order preserved, oldest first) of length
`min 6 N`.  The embedding is a pure function of the history list, so the
caller's sequence is never mutated. -/
theorem conversation_history_window (history : List Message) :
    (history = [] → LLMService.format_conversation_history history = "") ∧
    (history ≠ [] →
      ∃ dropped,
        history = dropped ++ history.drop (history.length - 6) ∧
        (history.drop (history.length - 6)).length = min 6 history.length ∧
        LLMService.format_conversation_history history =
          String.intercalate "\n"
            ((history.drop (history.length - 6)).map renderMessage)) := by
  constructor
  · rintro rfl
    rfl
  · intro h
    refine ⟨history.take (history.length - 6), (List.take_append_drop _ _).symm, ?_, ?_⟩
    · rw [List.length_drop]
      omega
    · have hne : history.isEmpty = false := by
        cases history with
        | nil => exact absurd rfl h
        | cons a as => rfl
      simp [LLMService.format_conversation_history, hne]

/-- C6 (witness): the empty history yields `""`, and the ten-turn history is
windowed to its last six turns. -/
theorem conversation_history_window_witness :
    LLMService.format_conversation_history ([] : List Message) = "" ∧
    (∃ dropped,
      hist10 = dropped ++ hist10.drop (hist10.length - 6) ∧
      (hist10.drop (hist10.length - 6)).length = min 6 hist10.length ∧
      LLMService.format_conversation_history hist10 =
        String.intercalate "\n" ((hist10.drop (hist10.length - 6)).map renderMessage)) :=
  ⟨(conversation_history_window []).1 rfl,
   (conversation_history_window hist10).2 (by decide)⟩

/-- C7 (counterexample): with the fixture key stored as `"PIKACHU"` and the
query `"name:pikachu"`, case-insensitive matching relates the key and the
query, yet the code returns the empty result instead of the entry's records —
only the query is lowercased, keys are matched verbatim. -/
theorem demo_search_counterexample :
    containsSub (pyLower "PIKACHU") (pyLower "name:pikachu") = true ∧
    PokemonService.search_in_demo_data upperKeyTable "name:pikachu" = SearchResult.ok [] ∧
    SearchResult.ok [] ≠ SearchResult.ok [pikaCard] := by
  refine ⟨by decide, by decide, by decide⟩

/-- C7 (amended): demo search lowercases only the query (so the result depends
only on the lowercased query text, and keys must be stored lowercase to be
found): the first pass returns the value of the first entry whose key occurs
verbatim in the lowered query; when the first pass finds nothing, a second
pass returns the value of the first entry whose key matches the lowered query
in either direction — in particular an entry whose key contains the lowered
query; when no key matches in either direction the empty result — of the same
`SearchResult` shape as the live path — is returned. -/
theorem demo_search_spec (table : List (String × SearchResult)) (q1 q2 query : String) :
    (pyLower q1 = pyLower q2 →
      PokemonService.search_in_demo_data table q1 =
        PokemonService.search_in_demo_data table q2) ∧
    ((∀ kv ∈ table, containsSub kv.1 (pyLower query) = false ∧
        containsSub (pyLower query) kv.1 = false) →
      PokemonService.search_in_demo_data table query = SearchResult.ok []) ∧
    (∀ kv, table.find? (fun kv => containsSub kv.1 (pyLower query)) = some kv →
      PokemonService.search_in_demo_data table query = kv.2) ∧
    (∀ kv, table.find? (fun kv => containsSub kv.1 (pyLower query)) = none →
      table.find? (fun kv =>
        containsSub kv.1 (pyLower query) || containsSub (pyLower query) kv.1) = some kv →
      PokemonService.search_in_demo_data table query = kv.2) := by
  refine ⟨fun h => ?_, fun h => ?_, fun kv h => ?_, fun kv h1 h2 => ?_⟩
  · unfold PokemonService.search_in_demo_data
    rw [h]
  · unfold PokemonService.search_in_demo_data
    have h1 : table.find? (fun kv => containsSub kv.1 (pyLower query)) = none :=
      List.find?_eq_none.mpr (fun kv hkv => by simp [(h kv hkv).1])
    have h2 : table.find? (fun kv =>
        containsSub kv.1 (pyLower query) || containsSub (pyLower query) kv.1) = none :=
      List.find?_eq_none.mpr (fun kv hkv => by simp [(h kv hkv).1, (h kv hkv).2])
    rw [h1, h2]
  · unfold PokemonService.search_in_demo_data
    rw [h]
  · unfold PokemonService.search_in_demo_data
    rw [h1, h2]

/-- C7 (witness): with a lowercase key the first pass finds the entry, and a
key containing the lowered query is found by the second pass when the first
pass fails. -/
theorem demo_search_spec_witness :
    PokemonService.search_in_demo_data lowerKeyTable "name:pikachu" =
      SearchResult.ok [pikaCard] ∧
    PokemonService.search_in_demo_data phraseKeyTable "pikachu" =
      SearchResult.ok [pikaCard] :=
  ⟨(demo_search_spec lowerKeyTable "q" "q" "name:pikachu").2.2.1
    ("pikachu", SearchResult.ok [pikaCard]) (by decide),
   (demo_search_spec phraseKeyTable "q" "q" "pikachu").2.2.2
    ("pikachu is electric", SearchResult.ok [pikaCard]) (by decide) (by decide)⟩

/-- C8: the stage-1 query obtained from any raw model output contains no
newline character and has no leading or trailing whitespace (the output is
stripped, then interior newlines are replaced by spaces; nothing else is
applied). -/
theorem generate_api_query_single_line (raw : String) :
    (∀ c ∈ (LLMService.generate_api_query raw).data, c ≠ '\n') ∧
    (∀ c, (LLMService.generate_api_query raw).data.head? = some c →
      pyIsSpace c = false) ∧
    (∀ c, (LLMService.generate_api_query raw).data.getLast? = some c →
      pyIsSpace c = false) := by
  have hq : (LLMService.generate_api_query raw).data =
      (stripChars raw.data).map (fun c => if c = '\n' then ' ' else c) := rfl
  refine ⟨?_, ?_, ?_⟩
  · intro c hc
    rw [hq] at hc
    rcases List.mem_map.mp hc with ⟨x, _, hx⟩
    by_cases hxn : x = '\n'
    · rw [← hx]
      simp [hxn]
    · rw [← hx]
      simp [hxn]
  · intro c h
    rw [hq, List.head?_map] at h
    cases hh : (stripChars raw.data).head? with
    | none => rw [hh] at h; simp at h
    | some c0 =>
      rw [hh] at h
      simp only [Option.map_some'] at h
      have hc0 : pyIsSpace c0 = false := stripChars_head hh
      have hc0n : ¬(c0 = '\n') := by
        intro e
        rw [e] at hc0
        simp [pyIsSpace] at hc0
      injection h with h
      rw [← h, if_neg hc0n]
      exact hc0
  · intro c h
    rw [hq, List.getLast?_map] at h
    cases hh : (stripChars raw.data).getLast? with
    | none => rw [hh] at h; simp at h
    | some c0 =>
      rw [hh] at h
      simp only [Option.map_some'] at h
      have hc0 : pyIsSpace c0 = false := stripChars_getLast hh
      have hc0n : ¬(c0 = '\n') := by
        intro e
        rw [e] at hc0
        simp [pyIsSpace] at hc0
      injection h with h
      rw [← h, if_neg hc0n]
      exact hc0

/-- C8 (witness): on a raw output with surrounding whitespace and an interior
newline, the cleaned query's first character is not whitespace. -/
theorem generate_api_query_single_line_witness : pyIsSpace 'n' = false :=
  (generate_api_query_single_line "  name:pikachu\nhp:[60 TO *]  ").2.1 'n' rfl

/-- C9: the formatter and the extractor are pure, deterministic functions of
the search result: two calls on equal inputs yield identical display text and
identical card-summary sequences — the embedding reads no state besides its
argument. -/
theorem formatter_deterministic (r1 r2 : SearchResult) (h : r1 = r2) :
    format_cards_for_llm r1 = format_cards_for_llm r2 ∧
    extract_card_info r1 = extract_card_info r2 := by
  subst h
  exact ⟨rfl, rfl⟩

/-- C9 (witness): formatting the same error result twice is identical. -/
theorem formatter_deterministic_witness :
    format_cards_for_llm (SearchResult.httpStatusError 429 "rate limited" "body") =
      format_cards_for_llm (SearchResult.httpStatusError 429 "rate limited" "body") ∧
    extract_card_info (SearchResult.httpStatusError 429 "rate limited" "body") =
      extract_card_info (SearchResult.httpStatusError 429 "rate limited" "body") :=
  formatter_deterministic _ _ rfl

/-- C10: a turn renders with the `"User:"` prefix exactly when its role is the
exact string `"user"`; every other role value — including roles outside the
declared user/assistant set — is silently rendered with the `"Assistant:"`
prefix, never rejected. -/
theorem render_message_role (m : Message) :
    (m.role ≠ "user" → renderMessage m = "Assistant: " ++ m.content) ∧
    (m.role = "user" → renderMessage m = "User: " ++ m.content) ∧
    (m.role ≠ "user" → isPre "User: ".data (renderMessage m).data = false) := by
  refine ⟨fun h => ?_, fun h => ?_, fun h => ?_⟩
  · simp only [renderMessage, if_neg h]
    rfl
  · simp only [renderMessage, if_pos h]
    rfl
  · simp only [renderMessage, if_neg h]
    rfl

/-- C10 (witness): an out-of-set role such as `"system"` is rendered as an
assistant turn. -/
theorem render_message_role_witness :
    renderMessage ⟨"system", "boot"⟩ = "Assistant: " ++ "boot" :=
  (render_message_role ⟨"system", "boot"⟩).1 (by decide)
